import Mathlib

/-!
# Verification of the Adaptive Prediction Engine (`ml_model.py` / `main.py`)

Shallow embedding of the number-learning repository's prediction engine.

Modelling conventions:
* Python `int` is modelled by `ℤ` (arbitrary precision in both).
* Python `float` is modelled by `ℚ`, with decimal literals taken at their
  exact decimal value (`0.4 = 2/5`, `0.92 = 23/25`, `0.03 = 3/100`, ...).
* `random.random()`, `random.choice`, `random.uniform`, `random.randint`
  draws are passed in explicitly as fields of a draw record; a validity
  predicate states the ranges the Python generators guarantee.
* `random.randint(a, b)` raises `ValueError` when `a > b`; fallible paths
  therefore return `Option`, with `none` modelling the raised exception.
* The scikit-learn pipeline `PolynomialFeatures(3) + LinearRegression` is an
  external library: its fitted parameters are modelled as a 4-tuple of
  coefficients `(a0, a1, a2, a3)`, its `predict` as exact cubic evaluation,
  and its `fit` as an arbitrary pure function of the training columns
  (scikit-learn's `fit` discards all previously fitted state).
* Free-text diagnostic `reason` strings are elided from the decision trace;
  the numeric fields of `last_prediction_info` are kept.
-/

namespace NumberLearning

/-- Truncation toward zero: Python's `int(...)` applied to a float value. -/
def pyTrunc (q : ℚ) : ℤ := if q < 0 then ⌈q⌉ else ⌊q⌋

/-- Python's `round(...)` on a float value: nearest integer, ties to even. -/
def pyRound (q : ℚ) : ℤ :=
  let f := ⌊q⌋
  let r := q - (f : ℚ)
  if r < 1 / 2 then f
  else if 1 / 2 < r then f + 1
  else if f % 2 = 0 then f else f + 1

/-- Python's floor division `a // b` on integers. -/
def pyFloorDiv (a b : ℤ) : ℤ := Int.fdiv a b

/-- The numeric fields of `MLModel.last_prediction_info`
(`ml_model.py` lines 135-140 and 165-171); free-text reasons elided. -/
structure PredInfo where
  mode : String
  epsilonAt : ℚ
  confidence : ℚ
  raw_prediction : Option ℚ
deriving Repr, DecidableEq

/-- The state of `MLModel` (`ml_model.py` lines 29-59).  The scikit-learn
pipeline is represented by its fitted cubic coefficients `(a0, a1, a2, a3)`;
before any fit they hold the placeholder `(0, 0, 0, 0)`, which the code never
reads because `predict` consults the pipeline only when `is_fitted = true`. -/
structure MLModel where
  epsilon : ℚ
  epsilon_min : ℚ
  epsilon_decay : ℚ
  output_range : ℤ × ℤ
  coeffs : ℚ × ℚ × ℚ × ℚ
  is_fitted : Bool
  interaction_count : ℤ
  positive_feedback_count : ℤ
  last_prediction_info : Option PredInfo
deriving Repr, DecidableEq

/-- Constructor `MLModel.__init__` (`ml_model.py` lines 29-59). -/
def MLModel.init (epsilon_start epsilon_min epsilon_decay : ℚ)
    (output_range : ℤ × ℤ) : MLModel :=
  { epsilon := epsilon_start
    epsilon_min := epsilon_min
    epsilon_decay := epsilon_decay
    output_range := output_range
    coeffs := (0, 0, 0, 0)
    is_fitted := false
    interaction_count := 0
    positive_feedback_count := 0
    last_prediction_info := none }

/-- A fresh `MLModel()` with the default constructor arguments
`epsilon_start = 0.4`, `epsilon_min = 0.03`, `epsilon_decay = 0.92`,
`output_range = (1, 100000)`. -/
def mlDefault : MLModel := MLModel.init (2 / 5) (3 / 100) (23 / 25) (1, 100000)

/-- Cubic evaluation `a0 + a1 x + a2 x² + a3 x³`: the value returned by
`self.model.predict` for a pipeline fitted to coefficients `c`
(`ml_model.py` line 146). -/
def polyEval (c : ℚ × ℚ × ℚ × ℚ) (x : ℤ) : ℚ :=
  c.1 + c.2.1 * (x : ℚ) + c.2.2.1 * (x : ℚ) ^ 2 + c.2.2.2 * (x : ℚ) ^ 3

/-- The list `random.choice` draws the multiplier from (`ml_model.py` line 94). -/
def multiplierChoices : List ℤ := [2, 3, 4, 5, 10, 20, 50]

/-- The list `random.choice` draws the offset from (`ml_model.py` line 102). -/
def offsetChoices : List ℤ := [10, 25, 50, 100, 200, 500, 1000]

/-- One outcome of the random draws `_get_exploration_output` can make
(`ml_model.py` lines 90-112).  Every field is drawn up front; each branch of
the code reads only the draws it uses. -/
structure ERand where
  strategy : ℚ
  multiplier : ℤ
  factor : ℚ
  offset : ℤ
  signDraw : ℚ
  randintVal : ℤ
deriving Repr, DecidableEq

/-- The ranges Python's `random` module guarantees for the draws of
`_get_exploration_output`: `random.random() ∈ [0, 1)`, `random.choice` picks
from its list, `random.uniform(0.5, 3.0) ∈ [0.5, 3.0]`, and
`random.randint(a, b) ∈ [a, b]` whenever `a ≤ b` (for `a > b` it raises and
produces no value, so no constraint is needed). -/
def ERand.Valid (rng : ERand) (omax user_input : ℤ) : Prop :=
  0 ≤ rng.strategy ∧ rng.strategy < 1 ∧
  rng.multiplier ∈ multiplierChoices ∧
  1 / 2 ≤ rng.factor ∧ rng.factor ≤ 3 ∧
  rng.offset ∈ offsetChoices ∧
  0 ≤ rng.signDraw ∧ rng.signDraw < 1 ∧
  (max 1 (pyFloorDiv user_input 2) ≤ min omax (user_input * 50) →
    max 1 (pyFloorDiv user_input 2) ≤ rng.randintVal ∧
      rng.randintVal ≤ min omax (user_input * 50))

instance (rng : ERand) (omax user_input : ℤ) :
    Decidable (rng.Valid omax user_input) := by
  unfold ERand.Valid; infer_instance

/-- Generator `MLModel._get_exploration_output` (`ml_model.py` lines 80-116).
`none` models the `ValueError` that `random.randint` raises when its range
is empty; in all other cases the candidate of the drawn strategy is clamped
by `output = max(1, min(self.output_range[1], output))` (line 115). -/
def get_exploration_output (st : MLModel) (rng : ERand) (user_input : ℤ) :
    Option ℤ :=
  let candidate : Option ℤ :=
    if rng.strategy < 35 / 100 then
      some (user_input * rng.multiplier)
    else if rng.strategy < 65 / 100 then
      some (pyTrunc ((user_input : ℚ) * rng.factor))
    else if rng.strategy < 85 / 100 then
      if rng.signDraw < 1 / 2 then some (user_input + rng.offset)
      else some (max 1 (user_input - rng.offset))
    else
      let min_val := max 1 (pyFloorDiv user_input 2)
      let max_val := min st.output_range.2 (user_input * 50)
      if min_val ≤ max_val then some rng.randintVal else none
  candidate.map (fun output => max 1 (min st.output_range.2 output))

/-- The random draws one call of `MLModel.predict` can make: the
epsilon-greedy draw `r = random.random()` (line 129) plus the draws of the
exploration generator. -/
structure PRand where
  r : ℚ
  er : ERand
deriving Repr, DecidableEq

/-- Operation `MLModel.predict` (`ml_model.py` lines 118-173).  Returns
`(predicted_output, was_exploration)` together with the post-state (the only
field `predict` writes is `last_prediction_info`); `none` models the
exception propagated out of `_get_exploration_output`. -/
def predict (st : MLModel) (rng : PRand) (user_input : ℤ) :
    Option (ℤ × Bool × MLModel) :=
  let explore := rng.r < st.epsilon
  if explore ∨ st.is_fitted = false then
    let info : PredInfo :=
      { mode := "exploration", epsilonAt := st.epsilon,
        confidence := 0, raw_prediction := none }
    (get_exploration_output st rng.er user_input).map
      (fun output => (output, true, { st with last_prediction_info := some info }))
  else
    let predicted := polyEval st.coeffs user_input
    let confidence := min (95 / 100 : ℚ)
      ((st.positive_feedback_count : ℚ) / ((max 10 st.interaction_count : ℤ) : ℚ))
    let info : PredInfo :=
      { mode := "exploitation", epsilonAt := st.epsilon,
        confidence := confidence, raw_prediction := some predicted }
    if predicted < (user_input : ℚ) * (3 / 10) ∧ st.positive_feedback_count < 5 then
      some (user_input * 2, false,
        { st with last_prediction_info := some info })
    else
      let output := pyRound predicted
      let output := if output < 1 then max 1 user_input else output
      let output := min st.output_range.2 output
      some (output, false,
        { st with last_prediction_info := some info })

/-- Operation `MLModel.update` (`ml_model.py` lines 175-194). -/
def update (st : MLModel) (user_input expected_output : ℤ)
    (feedback_value : ℚ) : MLModel :=
  let st1 := { st with interaction_count := st.interaction_count + 1 }
  let st2 :=
    if 0 < feedback_value then
      { st1 with positive_feedback_count := st1.positive_feedback_count + 1 }
    else st1
  { st2 with epsilon := max st2.epsilon_min (st2.epsilon * st2.epsilon_decay) }

/-- The filter `fb > 0` of `batch_retrain` (`ml_model.py` line 210),
applied to an interaction triple `(user_input, expected_output, feedback_value)`. -/
def posFB (t : ℤ × ℤ × ℚ) : Bool := decide (0 < t.2.2)

/-- Operation `MLModel.batch_retrain` (`ml_model.py` lines 196-222), parametric in the
least-squares fitting routine `fit` of the scikit-learn pipeline, which is a
pure function of the training columns `X` and `y` it is handed. -/
def batch_retrain (fit : List ℚ → List ℚ → ℚ × ℚ × ℚ × ℚ)
    (st : MLModel) (interactions : List (ℤ × ℤ × ℚ)) : MLModel :=
  if interactions = [] then st
  else
    let positive_interactions := interactions.filter posFB
    if positive_interactions = [] then st
    else
      let X := positive_interactions.map (fun t => ((t.1 : ℚ)))
      let y := positive_interactions.map (fun t => ((t.2.1 : ℚ)))
      { st with coeffs := fit X y, is_fitted := true }

/-! ## Application layer (`main.py`)

The application pairs every `storage.save_interaction` with a
`model.update` on the same `(user_input, expected_output, feedback_value)`
triple (main loop step 7-8, training mode, auto-training mode, testing
mode), so the Interaction Log is modelled as the list of those triples,
most recent first.  `get_all_interactions` returns them oldest-first. -/

/-- The application state: the engine plus the Interaction Log, with the
most recent record at the head. -/
structure AppState where
  model : MLModel
  history : List (ℤ × ℤ × ℚ)
deriving Repr

/-- A fresh application: `MLModel()` with default arguments and an empty log. -/
def appFresh : AppState := { model := mlDefault, history := [] }

/-- Operation `NumberLearningApp._undo_last_interaction` (`main.py` lines 215-236):
if the log is empty, nothing happens; otherwise the most recent record is
removed, the model is retrained on the remaining records (oldest-first, via
`_retrain_model`), `interaction_count` is set to `max(0, count - 1)`, and
`positive_feedback_count` is set to `max(0, count - 1)` iff the deleted
record had `feedback_value > 0`. -/
def appUndo (fit : List ℚ → List ℚ → ℚ × ℚ × ℚ × ℚ) (s : AppState) : AppState :=
  match s.history with
  | [] => s
  | r :: rest =>
    let m1 := batch_retrain fit s.model rest.reverse
    let m2 := { m1 with interaction_count := max 0 (m1.interaction_count - 1) }
    let m3 :=
      if 0 < r.2.2 then
        { m2 with positive_feedback_count := max 0 (m2.positive_feedback_count - 1) }
      else m2
    { model := m3, history := rest }

/-- The operations of the application that touch the engine state or the
Interaction Log. -/
inductive AppOp where
  | doPredict (rng : PRand) (x : ℤ)
  | doUpdate (x e : ℤ) (fb : ℚ)
  | doRetrain
  | doUndo

/-- One application step.  A feedback round stores the record and calls
`update` on the same triple (`main.py` lines 699-710); `retrain` runs
`batch_retrain` over `get_all_interactions()` (oldest-first); `predict`
leaves the state as the engine returned it (or untouched when the
exploration generator raises). -/
def applyOp (fit : List ℚ → List ℚ → ℚ × ℚ × ℚ × ℚ) (s : AppState) :
    AppOp → AppState
  | .doPredict rng x =>
    match predict s.model rng x with
    | some res => { s with model := res.2.2 }
    | none => s
  | .doUpdate x e fb =>
    { model := update s.model x e fb, history := (x, e, fb) :: s.history }
  | .doRetrain => { s with model := batch_retrain fit s.model s.history.reverse }
  | .doUndo => appUndo fit s

/-- Running a sequence of application operations from a fresh application. -/
def runOps (fit : List ℚ → List ℚ → ℚ × ℚ × ℚ × ℚ) (ops : List AppOp) :
    AppState :=
  ops.foldl (applyOp fit) appFresh

/-- One `update` step as folded over a list of feedback triples. -/
def updStep (m : MLModel) (t : ℤ × ℤ × ℚ) : MLModel := update m t.1 t.2.1 t.2.2

/-- The engine after a sequence of `update` calls on a fresh default model. -/
def updRun (l : List (ℤ × ℤ × ℚ)) : MLModel := l.foldl updStep mlDefault

/-- The epsilon invariant of a default-parameter engine: the floor and decay
fields hold their constructor defaults and the rate is at least the floor. -/
def epsInv (m : MLModel) : Prop :=
  m.epsilon_min = 3 / 100 ∧ m.epsilon_decay = 23 / 25 ∧ 3 / 100 ≤ m.epsilon

/-- The counters of the engine mirror the Interaction Log: the interaction
count is the number of records and the positive-feedback count is the number
of records with `feedback_value > 0`. -/
def logInv (s : AppState) : Prop :=
  s.model.interaction_count = (s.history.length : ℤ) ∧
    s.model.positive_feedback_count = ((s.history.filter posFB).length : ℤ)

/-! ## Concrete instances used in checks -/

/-- A constant fitting routine, used to instantiate the pipeline's `fit`
parameter in concrete checks. -/
def fitc : List ℚ → List ℚ → ℚ × ℚ × ℚ × ℚ := fun _ _ => (1, 2, 3, 4)

/-- A default-parameter engine marked fitted whose pipeline evaluates to the
zero polynomial. -/
def zeroFitState : MLModel := { mlDefault with is_fitted := true }

/-- Draws with epsilon-greedy draw `r = 0.5` (no exploration at rate `0.4`);
the exploration draws are fixed but unused on the exploitation path. -/
def halfRand : PRand :=
  { r := 1 / 2,
    er := { strategy := 0, multiplier := 2, factor := 1, offset := 10,
            signDraw := 0, randintVal := 1 } }

/-- Draws with epsilon-greedy draw `r = 0` (forces exploration) landing in
the multiply strategy with multiplier `2`. -/
def zeroRand : PRand :=
  { r := 0,
    er := { strategy := 0, multiplier := 2, factor := 1, offset := 10,
            signDraw := 0, randintVal := 1 } }

/-- Exploration draws landing in the uniform-integer strategy
(`strategy = 0.9 ≥ 0.85`). -/
def randintRand : ERand :=
  { strategy := 9 / 10, multiplier := 2, factor := 1, offset := 10,
    signDraw := 0, randintVal := 1 }

/-- The decision trace `predict` stores on the exploration path of a fresh
default engine. -/
def wExplInfo : PredInfo :=
  { mode := "exploration", epsilonAt := 2 / 5, confidence := 0,
    raw_prediction := none }

/-- A fresh default engine after one exploration `predict`. -/
def wState : MLModel := { mlDefault with last_prediction_info := some wExplInfo }

/-- The decision trace `predict` stores on the fallback exploitation path of
`zeroFitState`. -/
def wExploitInfo : PredInfo :=
  { mode := "exploitation", epsilonAt := 2 / 5, confidence := 0,
    raw_prediction := some 0 }

/-- State `zeroFitState` after one exploitation `predict`. -/
def wFallbackState : MLModel :=
  { zeroFitState with last_prediction_info := some wExploitInfo }

/-- The record lists of the undo-then-retrain check: `C7all` is the full log
(oldest first) and `C7rest` is the log with the most recent record removed;
the remaining record carries negative feedback. -/
def C7all : List (ℤ × ℤ × ℚ) := [(1, 1, 0), (2, 2, 1)]

/-- List `C7all` with its most recent record removed. -/
def C7rest : List (ℤ × ℤ × ℚ) := [(1, 1, 0)]

/-! ## Helper lemmas -/

/-- Any value the exploration generator actually returns lies in
`[1, output_range.max]`, thanks to the final clamp. -/
theorem get_exploration_output_bounds (st : MLModel) (rng : ERand) (x out : ℤ)
    (homax : 1 ≤ st.output_range.2)
    (h : get_exploration_output st rng x = some out) :
    1 ≤ out ∧ out ≤ st.output_range.2 := by
  simp only [get_exploration_output, Option.map_eq_some'] at h
  obtain ⟨c, -, hout⟩ := h
  subst hout
  exact ⟨le_max_left _ _, max_le homax (min_le_left _ _)⟩

/-- Frame property: `predict` writes no field of the engine state except
`last_prediction_info`. -/
theorem predict_state_frame (st : MLModel) (rng : PRand) (x : ℤ)
    (res : ℤ × Bool × MLModel) (h : predict st rng x = some res) :
    res.2.2.epsilon = st.epsilon ∧ res.2.2.epsilon_min = st.epsilon_min ∧
      res.2.2.epsilon_decay = st.epsilon_decay ∧
      res.2.2.output_range = st.output_range ∧ res.2.2.coeffs = st.coeffs ∧
      res.2.2.is_fitted = st.is_fitted ∧
      res.2.2.interaction_count = st.interaction_count ∧
      res.2.2.positive_feedback_count = st.positive_feedback_count := by
  simp only [predict] at h
  split at h
  · rw [Option.map_eq_some'] at h
    obtain ⟨o, -, hres⟩ := h
    subst hres
    simp
  · split at h <;> (rw [Option.some_inj] at h; subst h; simp)

/-- Whatever path `predict` takes, a returned output is at least `1` and at
most `max output_range.max (x * 2)` (the fallback path is the only one that
can exceed `output_range.max`, and it returns `x * 2`). -/
theorem predict_output_bounds (st : MLModel) (rng : PRand) (x : ℤ)
    (hx : 1 ≤ x) (homax : 1 ≤ st.output_range.2)
    (res : ℤ × Bool × MLModel) (h : predict st rng x = some res) :
    1 ≤ res.1 ∧ res.1 ≤ max st.output_range.2 (x * 2) := by
  simp only [predict] at h
  split at h
  · rw [Option.map_eq_some'] at h
    obtain ⟨o, ho, hres⟩ := h
    subst hres
    obtain ⟨h1, h2⟩ := get_exploration_output_bounds st rng.er x o homax ho
    exact ⟨h1, h2.trans (le_max_left _ _)⟩
  · split at h
    · rw [Option.some_inj] at h
      subst h
      exact ⟨by omega, le_max_right _ _⟩
    · rw [Option.some_inj] at h
      subst h
      refine ⟨le_min homax ?_, (min_le_left _ _).trans (le_max_left _ _)⟩
      split
      · exact le_max_left _ _
      · omega

/-- What `update` does to the three epsilon fields. -/
theorem update_epsilon_fields (st : MLModel) (x e : ℤ) (fb : ℚ) :
    (update st x e fb).epsilon = max st.epsilon_min (st.epsilon * st.epsilon_decay) ∧
      (update st x e fb).epsilon_min = st.epsilon_min ∧
      (update st x e fb).epsilon_decay = st.epsilon_decay := by
  simp only [update]
  split <;> simp

/-- What `update` does to the two counters. -/
theorem update_counters (st : MLModel) (x e : ℤ) (fb : ℚ) :
    (update st x e fb).interaction_count = st.interaction_count + 1 ∧
      (update st x e fb).positive_feedback_count =
        (if 0 < fb then st.positive_feedback_count + 1
         else st.positive_feedback_count) := by
  simp only [update]
  split <;> simp

/-- Frame property: `batch_retrain` writes only `coeffs` and `is_fitted`. -/
theorem batch_retrain_frame (fit : List ℚ → List ℚ → ℚ × ℚ × ℚ × ℚ)
    (st : MLModel) (L : List (ℤ × ℤ × ℚ)) :
    (batch_retrain fit st L).epsilon = st.epsilon ∧
      (batch_retrain fit st L).epsilon_min = st.epsilon_min ∧
      (batch_retrain fit st L).epsilon_decay = st.epsilon_decay ∧
      (batch_retrain fit st L).output_range = st.output_range ∧
      (batch_retrain fit st L).interaction_count = st.interaction_count ∧
      (batch_retrain fit st L).positive_feedback_count = st.positive_feedback_count := by
  simp only [batch_retrain]
  split
  · simp
  · split <;> simp

/-- The undo operation never touches the exploration rate. -/
theorem appUndo_epsilon (fit : List ℚ → List ℚ → ℚ × ℚ × ℚ × ℚ) (s : AppState) :
    (appUndo fit s).model.epsilon = s.model.epsilon := by
  simp only [appUndo]
  split
  · rfl
  · split <;> simp [(batch_retrain_frame fit s.model _).1]

/-! ## Epsilon invariant (claim C4) -/

theorem epsInv_default : epsInv mlDefault := by
  refine ⟨rfl, rfl, ?_⟩
  norm_num [mlDefault, MLModel.init]

theorem updStep_epsInv (m : MLModel) (t : ℤ × ℤ × ℚ) (h : epsInv m) :
    epsInv (updStep m t) := by
  obtain ⟨h1, h2, h3⟩ := h
  obtain ⟨he, hm, hd⟩ := update_epsilon_fields m t.1 t.2.1 t.2.2
  exact ⟨by rw [updStep, hm, h1], by rw [updStep, hd, h2],
    by rw [updStep, he, h1]; exact le_max_left _ _⟩

theorem updStep_epsilon_le (m : MLModel) (t : ℤ × ℤ × ℚ) (h : epsInv m) :
    (updStep m t).epsilon ≤ m.epsilon := by
  obtain ⟨h1, h2, h3⟩ := h
  obtain ⟨he, -, -⟩ := update_epsilon_fields m t.1 t.2.1 t.2.2
  rw [updStep, he, h1, h2]
  refine max_le (by linarith) ?_
  have h0 : 0 ≤ m.epsilon := by linarith
  nlinarith

theorem foldl_updStep_epsInv (l : List (ℤ × ℤ × ℚ)) (m : MLModel) (h : epsInv m) :
    epsInv (l.foldl updStep m) := by
  induction l generalizing m with
  | nil => exact h
  | cons t l ih => exact ih _ (updStep_epsInv m t h)

theorem foldl_updStep_epsilon_le (l : List (ℤ × ℤ × ℚ)) (m : MLModel)
    (h : epsInv m) : (l.foldl updStep m).epsilon ≤ m.epsilon := by
  induction l generalizing m with
  | nil => exact le_refl _
  | cons t l ih =>
    exact (ih _ (updStep_epsInv m t h)).trans (updStep_epsilon_le m t h)

/-! ## Counter invariant (claim C5) -/

theorem logInv_fresh : logInv appFresh :=
  ⟨rfl, rfl⟩

/-- What the undo adjustment does to the counters when the log is nonempty. -/
theorem appUndo_counters (fit : List ℚ → List ℚ → ℚ × ℚ × ℚ × ℚ)
    (m : MLModel) (r : ℤ × ℤ × ℚ) (rest : List (ℤ × ℤ × ℚ)) :
    (appUndo fit ⟨m, r :: rest⟩).model.interaction_count =
        max 0 (m.interaction_count - 1) ∧
      (appUndo fit ⟨m, r :: rest⟩).model.positive_feedback_count =
        (if 0 < r.2.2 then max 0 (m.positive_feedback_count - 1)
         else m.positive_feedback_count) ∧
      (appUndo fit ⟨m, r :: rest⟩).history = rest := by
  obtain ⟨-, -, -, -, h5, h6⟩ := batch_retrain_frame fit m rest.reverse
  by_cases hr : 0 < r.2.2 <;> simp [appUndo, hr, h5, h6]

theorem applyOp_logInv (fit : List ℚ → List ℚ → ℚ × ℚ × ℚ × ℚ)
    (s : AppState) (op : AppOp) (h : logInv s) : logInv (applyOp fit s op) := by
  obtain ⟨hic, hpfc⟩ := h
  cases op with
  | doPredict rng x =>
    simp only [applyOp]
    cases hp : predict s.model rng x with
    | none => exact ⟨hic, hpfc⟩
    | some res =>
      obtain ⟨-, -, -, -, -, -, h7, h8⟩ := predict_state_frame _ _ _ _ hp
      exact ⟨by rw [h7]; exact hic, by rw [h8]; exact hpfc⟩
  | doUpdate x e fb =>
    obtain ⟨h1, h2⟩ := update_counters s.model x e fb
    constructor
    · simp only [applyOp, h1, hic, List.length_cons]
      push_cast
      ring
    · simp only [applyOp, h2, hpfc, List.filter_cons]
      by_cases hfb : 0 < fb
      · have hb : posFB (x, e, fb) = true := by simp [posFB, hfb]
        simp [hfb, hb]
      · have hb : ¬ posFB (x, e, fb) = true := by simp [posFB, hfb]
        simp [hfb, hb]
  | doRetrain =>
    obtain ⟨-, -, -, -, h5, h6⟩ := batch_retrain_frame fit s.model s.history.reverse
    exact ⟨by simpa [applyOp, h5] using hic, by simpa [applyOp, h6] using hpfc⟩
  | doUndo =>
    obtain ⟨m, hist⟩ := s
    rcases hist with - | ⟨r, rest⟩
    · simpa only [applyOp, appUndo] using And.intro hic hpfc
    · obtain ⟨hu1, hu2, hu3⟩ := appUndo_counters fit m r rest
      simp only [logInv] at hic hpfc ⊢
      simp only [applyOp] at hu1 hu2 hu3 ⊢
      rw [hu1, hu2, hu3]
      rw [List.length_cons] at hic
      rw [List.filter_cons] at hpfc
      have hposb : (posFB r = true) ↔ (0 < r.2.2) := by simp [posFB]
      constructor
      · push_cast at hic ⊢
        omega
      · by_cases hr : 0 < r.2.2
        · rw [if_pos hr]
          rw [if_pos (hposb.mpr hr), List.length_cons] at hpfc
          push_cast at hpfc ⊢
          omega
        · rw [if_neg hr]
          rw [if_neg (fun hb => hr (hposb.mp hb))] at hpfc
          exact hpfc

theorem runOps_logInv (fit : List ℚ → List ℚ → ℚ × ℚ × ℚ × ℚ)
    (ops : List AppOp) : logInv (runOps fit ops) := by
  suffices h : ∀ s, logInv s → logInv (List.foldl (applyOp fit) s ops) from
    h appFresh logInv_fresh
  induction ops with
  | nil => exact fun s hs => hs
  | cons op ops ih => exact fun s hs => ih _ (applyOp_logInv fit s op hs)

/-- The no-op case of `batch_retrain`: no record passes the positive filter. -/
theorem batch_retrain_of_filter_eq_nil (fit : List ℚ → List ℚ → ℚ × ℚ × ℚ × ℚ)
    (st : MLModel) (L : List (ℤ × ℤ × ℚ)) (hf : L.filter posFB = []) :
    batch_retrain fit st L = st := by
  by_cases hL : L = []
  · simp [batch_retrain, hL]
  · simp [batch_retrain, hL, hf]

/-- The fitting case of `batch_retrain`: some record passes the positive
filter, and the engine is refit on the filtered input/expected columns. -/
theorem batch_retrain_of_filter_ne_nil (fit : List ℚ → List ℚ → ℚ × ℚ × ℚ × ℚ)
    (st : MLModel) (L : List (ℤ × ℤ × ℚ)) (hf : L.filter posFB ≠ []) :
    batch_retrain fit st L =
      { st with
          coeffs := fit ((L.filter posFB).map fun t => ((t.1 : ℚ)))
            ((L.filter posFB).map fun t => ((t.2.1 : ℚ))),
          is_fitted := true } := by
  have hL : L ≠ [] := by
    intro h
    rw [h] at hf
    simp at hf
  simp [batch_retrain, hL, hf]

/-! ## Claims -/

/-- C6: `batch_retrain` keeps exactly the records with `feedbackValue > 0`;
if the filtered set is empty (in particular when the whole list is empty) it
is a no-op leaving the whole state (coefficients, `is_fitted`) unchanged,
and otherwise it fits on the `(inputValue, expectedOutput)` columns of the
retained records and sets `is_fitted = true`. -/
theorem C6_batch_retrain_filter (fit : List ℚ → List ℚ → ℚ × ℚ × ℚ × ℚ)
    (st : MLModel) (L : List (ℤ × ℤ × ℚ)) :
    (L.filter posFB = [] → batch_retrain fit st L = st) ∧
      (L.filter posFB ≠ [] →
        batch_retrain fit st L =
          { st with
              coeffs := fit ((L.filter posFB).map fun t => ((t.1 : ℚ)))
                ((L.filter posFB).map fun t => ((t.2.1 : ℚ))),
              is_fitted := true }) :=
  ⟨batch_retrain_of_filter_eq_nil fit st L, batch_retrain_of_filter_ne_nil fit st L⟩

/-- C6 witness: on a single rejected record `batch_retrain` is the identity;
on a single accepted record it refits and marks the engine fitted. -/
theorem C6_witness :
    batch_retrain fitc mlDefault [((1 : ℤ), (1 : ℤ), (0 : ℚ))] = mlDefault ∧
      batch_retrain fitc mlDefault [((1 : ℤ), (2 : ℤ), (1 : ℚ))] =
        { mlDefault with
            coeffs := fitc
              ((([((1 : ℤ), (2 : ℤ), (1 : ℚ))].filter posFB)).map fun t => ((t.1 : ℚ)))
              ((([((1 : ℤ), (2 : ℤ), (1 : ℚ))].filter posFB)).map fun t => ((t.2.1 : ℚ))),
            is_fitted := true } :=
  ⟨(C6_batch_retrain_filter fitc mlDefault _).1 (by norm_num [List.filter, posFB]),
   (C6_batch_retrain_filter fitc mlDefault _).2 (by norm_num [List.filter, posFB])⟩

/-- C7 counterexample: fit on the two-record log `C7all`, drop the most
recent (only positive) record, and re-run `batch_retrain` on the remainder:
the coefficients of the old fit survive (`batch_retrain` is a no-op on a
log with no positive records), while a fresh engine fitting the same
remainder stays unfitted with placeholder coefficients — residual state. -/
theorem C7_counterexample :
    C7all.dropLast = C7rest ∧
      (batch_retrain fitc (batch_retrain fitc mlDefault C7all) C7rest).coeffs
        = (1, 2, 3, 4) ∧
      (batch_retrain fitc mlDefault C7rest).coeffs = (0, 0, 0, 0) ∧
      (batch_retrain fitc mlDefault C7rest).is_fitted = false ∧
      ((1, 2, 3, 4) : ℚ × ℚ × ℚ × ℚ) ≠ ((0, 0, 0, 0) : ℚ × ℚ × ℚ × ℚ) := by
  refine ⟨rfl, ?_, ?_, ?_, by norm_num⟩ <;>
    norm_num [batch_retrain, fitc, posFB, mlDefault, MLModel.init, C7all,
      C7rest, List.filter, List.cons_ne_nil]

/-- C7 (amended): provided at least one record of the list passes the
positive-feedback filter, re-running `batch_retrain` in any engine state —
in particular one previously fitted on a larger list — produces exactly the
coefficients a fresh default engine would produce fitting the same list,
and marks the engine fitted: the fit depends only on its argument. -/
theorem C7_fresh_fit_equivalence (fit : List ℚ → List ℚ → ℚ × ℚ × ℚ × ℚ)
    (st : MLModel) (L : List (ℤ × ℤ × ℚ)) (hpos : L.filter posFB ≠ []) :
    (batch_retrain fit st L).coeffs = (batch_retrain fit mlDefault L).coeffs ∧
      (batch_retrain fit st L).is_fitted = true := by
  rw [batch_retrain_of_filter_ne_nil fit st L hpos,
    batch_retrain_of_filter_ne_nil fit mlDefault L hpos]
  exact ⟨rfl, rfl⟩

/-- C7 witness: concrete instance of the amended statement on a previously
fitted engine and a one-record positive log. -/
theorem C7_witness :
    (batch_retrain fitc zeroFitState [((1 : ℤ), (2 : ℤ), (1 : ℚ))]).coeffs =
        (batch_retrain fitc mlDefault [((1 : ℤ), (2 : ℤ), (1 : ℚ))]).coeffs ∧
      (batch_retrain fitc zeroFitState [((1 : ℤ), (2 : ℤ), (1 : ℚ))]).is_fitted = true :=
  C7_fresh_fit_equivalence fitc zeroFitState _ (by norm_num [List.filter, posFB])

/-- Concrete run: a fresh default engine explores (multiplier strategy,
input 1, multiplier 2) and returns `(2, true)`. -/
theorem predict_fresh_concrete :
    predict mlDefault zeroRand 1 = some (2, true, wState) := by
  norm_num [predict, get_exploration_output, zeroRand, mlDefault, MLModel.init,
    wState, wExplInfo]

/-- Concrete run: `zeroFitState` at input 1 with `r = 0.5` exploits, the raw
prediction `0 < 0.3` triggers the fallback, and the result is `(2, false)`. -/
theorem predict_fallback_concrete :
    predict zeroFitState halfRand 1 = some (2, false, wFallbackState) := by
  norm_num [predict, zeroFitState, halfRand, mlDefault, MLModel.init, polyEval,
    wFallbackState, wExploitInfo]

/-- C1 counterexample: the fitted all-zero-coefficient default engine at
input 50001 takes the exploitation fallback (raw `0 < 0.3·50001`, zero
positive feedback) and returns `100002`, which exceeds
`outputRange.max = 100000` — the fallback branch is not clamped. -/
theorem C1_counterexample :
    zeroFitState.is_fitted = true ∧
      zeroFitState.output_range.2 = 100000 ∧
      (1 : ℤ) ≤ 50001 ∧
      (predict zeroFitState halfRand 50001).map (fun t => t.1) = some 100002 ∧
      ¬ ((100002 : ℤ) ≤ 100000) := by
  refine ⟨rfl, rfl, by norm_num, ?_, by norm_num⟩
  norm_num [predict, zeroFitState, halfRand, mlDefault, MLModel.init, polyEval]

/-- C1 (amended): for every fitted engine state with `outputRange.max ≥ 1`
and every input `x ≥ 1`, any output `predict` returns satisfies
`1 ≤ output ≤ max outputRange.max (x * 2)`: the bound `outputRange.max`
holds on every branch except the heuristic fallback, which returns the
unclamped `x * 2`. -/
theorem C1_output_clamp (st : MLModel) (rng : PRand) (x : ℤ)
    (_hfit : st.is_fitted = true) (hx : 1 ≤ x) (homax : 1 ≤ st.output_range.2)
    (res : ℤ × Bool × MLModel) (h : predict st rng x = some res) :
    1 ≤ res.1 ∧ res.1 ≤ max st.output_range.2 (x * 2) :=
  predict_output_bounds st rng x hx homax res h

/-- C1 witness: the amended bound at the concrete fallback run. -/
theorem C1_witness :
    (1 : ℤ) ≤ ((2 : ℤ), false, wFallbackState).1 ∧
      ((2 : ℤ), false, wFallbackState).1 ≤ max zeroFitState.output_range.2 (1 * 2) :=
  C1_output_clamp zeroFitState halfRand 1 rfl (by norm_num)
    (by norm_num [zeroFitState, mlDefault, MLModel.init])
    (2, false, wFallbackState) predict_fallback_concrete

/-- C2: with a fitted engine, fewer than 5 positive feedbacks, an input
`x ≥ 1` whose raw polynomial evaluation is below `0.3 · x`, and an
epsilon-greedy draw that does not trigger exploration, `predict` returns
exactly `x * 2` and reports `wasExploration = false`. -/
theorem C2_low_confidence_guard (st : MLModel) (rng : PRand) (x : ℤ)
    (hfit : st.is_fitted = true) (hpfc : st.positive_feedback_count < 5)
    (_hx : 1 ≤ x) (hraw : polyEval st.coeffs x < (x : ℚ) * (3 / 10))
    (hexp : ¬ rng.r < st.epsilon) :
    (predict st rng x).map (fun t => (t.1, t.2.1)) = some (x * 2, false) := by
  simp only [predict]
  rw [if_neg (not_or.mpr ⟨hexp, by simp [hfit]⟩)]
  rw [if_pos ⟨hraw, hpfc⟩]
  rfl

/-- C2 witness: the concrete fallback run hits the guard. -/
theorem C2_witness :
    (predict zeroFitState halfRand 1).map (fun t => (t.1, t.2.1)) =
      some (1 * 2, false) :=
  C2_low_confidence_guard zeroFitState halfRand 1 rfl
    (by norm_num [zeroFitState, mlDefault, MLModel.init])
    (by norm_num)
    (by norm_num [zeroFitState, mlDefault, MLModel.init, polyEval])
    (by norm_num [zeroFitState, halfRand, mlDefault, MLModel.init])

/-- C3: on an unfitted engine — in particular a fresh one — every value
`predict` returns reports `wasExploration = true`, whatever the random
draws were. -/
theorem C3_unfitted_forces_exploration (st : MLModel) (rng : PRand) (x : ℤ)
    (hunfit : st.is_fitted = false)
    (res : ℤ × Bool × MLModel) (h : predict st rng x = some res) :
    res.2.1 = true := by
  simp only [predict] at h
  rw [if_pos (Or.inr hunfit)] at h
  rw [Option.map_eq_some'] at h
  obtain ⟨o, -, hres⟩ := h
  subst hres
  rfl

/-- C3 witness: the concrete fresh-engine run reports exploration. -/
theorem C3_witness : ((2 : ℤ), true, wState).2.1 = true :=
  C3_unfitted_forces_exploration mlDefault zeroRand 1 rfl
    (2, true, wState) predict_fresh_concrete

/-- C8: `predict` has no side effect on the interaction counter, the
positive-feedback counter, epsilon, `is_fitted`, or the fitted
coefficients — it is a pure read of the state plus the random draws. -/
theorem C8_predict_pure (st : MLModel) (rng : PRand) (x : ℤ)
    (res : ℤ × Bool × MLModel) (h : predict st rng x = some res) :
    res.2.2.interaction_count = st.interaction_count ∧
      res.2.2.positive_feedback_count = st.positive_feedback_count ∧
      res.2.2.epsilon = st.epsilon ∧
      res.2.2.is_fitted = st.is_fitted ∧
      res.2.2.coeffs = st.coeffs := by
  obtain ⟨h1, -, -, -, h5, h6, h7, h8⟩ := predict_state_frame st rng x res h
  exact ⟨h7, h8, h1, h6, h5⟩

/-- C8 witness: the concrete fresh-engine run leaves all five fields alone. -/
theorem C8_witness :
    wState.interaction_count = mlDefault.interaction_count ∧
      wState.positive_feedback_count = mlDefault.positive_feedback_count ∧
      wState.epsilon = mlDefault.epsilon ∧
      wState.is_fitted = mlDefault.is_fitted ∧
      wState.coeffs = mlDefault.coeffs :=
  C8_predict_pure mlDefault zeroRand 1 (2, true, wState) predict_fresh_concrete

/-- C10: whenever `predict` returns a value at all, the output is at least
`1`, on all three paths (exploration clamp, rounding substitution, and the
`x * 2` fallback), for any input `x ≥ 1` and `outputRange.max ≥ 1`. -/
theorem C10_lower_bound (st : MLModel) (rng : PRand) (x : ℤ)
    (hx : 1 ≤ x) (homax : 1 ≤ st.output_range.2)
    (res : ℤ × Bool × MLModel) (h : predict st rng x = some res) :
    1 ≤ res.1 :=
  (predict_output_bounds st rng x hx homax res h).1

/-- C10 witness: the concrete fresh-engine run returns at least 1. -/
theorem C10_witness : 1 ≤ ((2 : ℤ), true, wState).1 :=
  C10_lower_bound mlDefault zeroRand 1 (by norm_num)
    (by norm_num [mlDefault, MLModel.init])
    (2, true, wState) predict_fresh_concrete

/-- C4: for any sequence of `update` calls on a fresh default engine
(`epsilon_start = 0.4`, `decay = 0.92`, `floor = 0.03`), the exploration
rate is non-increasing along the sequence and never drops below the floor;
and no other operation — `predict`, `batch_retrain`, or the application's
undo adjustment — changes the rate. -/
theorem C4_exploration_rate :
    (∀ l₁ l₂ : List (ℤ × ℤ × ℚ),
        (updRun (l₁ ++ l₂)).epsilon ≤ (updRun l₁).epsilon) ∧
      (∀ l : List (ℤ × ℤ × ℚ), (3 / 100 : ℚ) ≤ (updRun l).epsilon) ∧
      (∀ (st : MLModel) (rng : PRand) (x : ℤ) (res : ℤ × Bool × MLModel),
        predict st rng x = some res → res.2.2.epsilon = st.epsilon) ∧
      (∀ (fit : List ℚ → List ℚ → ℚ × ℚ × ℚ × ℚ) (st : MLModel)
          (L : List (ℤ × ℤ × ℚ)),
        (batch_retrain fit st L).epsilon = st.epsilon) ∧
      (∀ (fit : List ℚ → List ℚ → ℚ × ℚ × ℚ × ℚ) (s : AppState),
        (appUndo fit s).model.epsilon = s.model.epsilon) := by
  refine ⟨?_, ?_, ?_, ?_, ?_⟩
  · intro l₁ l₂
    rw [updRun, updRun, List.foldl_append]
    exact foldl_updStep_epsilon_le l₂ _ (foldl_updStep_epsInv l₁ _ epsInv_default)
  · intro l
    exact (foldl_updStep_epsInv l _ epsInv_default).2.2
  · intro st rng x res h
    exact (predict_state_frame st rng x res h).1
  · intro fit st L
    exact (batch_retrain_frame fit st L).1
  · exact appUndo_epsilon

/-- C4 witness: one update decays the rate from 0.4 and stays above the
floor, and the concrete `predict` run leaves the rate unchanged. -/
theorem C4_witness :
    (updRun ([] ++ [((1 : ℤ), (1 : ℤ), (1 : ℚ))])).epsilon ≤ (updRun []).epsilon ∧
      (3 / 100 : ℚ) ≤ (updRun [((1 : ℤ), (1 : ℤ), (1 : ℚ))]).epsilon ∧
      ((2 : ℤ), true, wState).2.2.epsilon = mlDefault.epsilon ∧
      (batch_retrain fitc mlDefault []).epsilon = mlDefault.epsilon ∧
      (appUndo fitc appFresh).model.epsilon = appFresh.model.epsilon := by
  obtain ⟨h1, h2, h3, h4, h5⟩ := C4_exploration_rate
  exact ⟨h1 [] [(1, 1, 1)], h2 [(1, 1, 1)],
    h3 mlDefault zeroRand 1 (2, true, wState) predict_fresh_concrete,
    h4 fitc mlDefault [], h5 fitc appFresh⟩

/-- C5: in every state reachable from a fresh application through the
program's operations (`predict`, `update`, `batch_retrain` over the stored
log, and the undo adjustment), the counters satisfy
`0 ≤ positive_feedback_count ≤ interaction_count`. -/
theorem C5_counter_consistency (fit : List ℚ → List ℚ → ℚ × ℚ × ℚ × ℚ)
    (ops : List AppOp) :
    0 ≤ (runOps fit ops).model.positive_feedback_count ∧
      (runOps fit ops).model.positive_feedback_count ≤
        (runOps fit ops).model.interaction_count := by
  obtain ⟨hic, hpfc⟩ := runOps_logInv fit ops
  refine ⟨?_, ?_⟩
  · rw [hpfc]
    exact Int.natCast_nonneg _
  · rw [hic, hpfc]
    exact_mod_cast List.length_filter_le _ _

/-- C5 witness: a concrete sequence — update, predict, retrain, undo. -/
theorem C5_witness :
    0 ≤ (runOps fitc [AppOp.doUpdate 1 2 1, AppOp.doPredict zeroRand 1,
        AppOp.doRetrain, AppOp.doUndo]).model.positive_feedback_count ∧
      (runOps fitc [AppOp.doUpdate 1 2 1, AppOp.doPredict zeroRand 1,
        AppOp.doRetrain, AppOp.doUndo]).model.positive_feedback_count ≤
      (runOps fitc [AppOp.doUpdate 1 2 1, AppOp.doPredict zeroRand 1,
        AppOp.doRetrain, AppOp.doUndo]).model.interaction_count :=
  C5_counter_consistency fitc _

/-- If the exploration generator raises, the uniform-integer range must
have been empty. -/
theorem get_exploration_output_none (st : MLModel) (rng : ERand) (x : ℤ)
    (h : get_exploration_output st rng x = none) :
    ¬ max 1 (pyFloorDiv x 2) ≤ min st.output_range.2 (x * 50) := by
  simp only [get_exploration_output, Option.map_eq_none'] at h
  split at h
  · exact absurd h (by simp)
  · split at h
    · exact absurd h (by simp)
    · split at h
      · split at h <;> exact absurd h (by simp)
      · split at h
        · exact absurd h (by simp)
        · assumption

/-- C9 counterexample: at input 200002 the uniform-integer strategy draws
`random.randint(100001, 100000)` — an empty range — so the generator
raises instead of returning a value, although all draws are legitimate
outcomes of Python's generators. -/
theorem C9_counterexample :
    randintRand.Valid mlDefault.output_range.2 200002 ∧
      (1 : ℤ) ≤ 200002 ∧
      get_exploration_output mlDefault randintRand 200002 = none := by
  refine ⟨?_, by norm_num, ?_⟩
  · norm_num [ERand.Valid, randintRand, multiplierChoices, offsetChoices,
      pyFloorDiv, Int.fdiv, mlDefault, MLModel.init]
  · norm_num [get_exploration_output, randintRand, mlDefault, MLModel.init,
      pyFloorDiv, Int.fdiv]

/-- C9 (amended): for every input `x` with `1 ≤ x ≤ 2 · outputRange.max + 1`
(`200001` for the default range) and every outcome of the random draws, the
heuristic generator terminates without error — every random-integer range
it draws from is non-empty — and returns a value in `[1, outputRange.max]`. -/
theorem C9_exploration_safe (st : MLModel) (rng : ERand) (x : ℤ)
    (hx : 1 ≤ x) (homax : 1 ≤ st.output_range.2)
    (hbound : x ≤ 2 * st.output_range.2 + 1) :
    ∃ out, get_exploration_output st rng x = some out ∧
      1 ≤ out ∧ out ≤ st.output_range.2 := by
  have hfd : pyFloorDiv x 2 = x / 2 := Int.fdiv_eq_ediv x (by norm_num)
  have hne : max 1 (pyFloorDiv x 2) ≤ min st.output_range.2 (x * 50) := by
    rw [hfd]
    omega
  cases hgeo : get_exploration_output st rng x with
  | none => exact absurd hne (get_exploration_output_none st rng x hgeo)
  | some out =>
    exact ⟨out, rfl, get_exploration_output_bounds st rng x out homax hgeo⟩

/-- C9 witness: at input 5 every draw outcome — here the uniform-integer
strategy — yields a value in range. -/
theorem C9_witness :
    ∃ out, get_exploration_output mlDefault randintRand 5 = some out ∧
      1 ≤ out ∧ out ≤ mlDefault.output_range.2 :=
  C9_exploration_safe mlDefault randintRand 5 (by norm_num)
    (by norm_num [mlDefault, MLModel.init])
    (by norm_num [mlDefault, MLModel.init])

end NumberLearning
